import Mathlib

/-!
Verification of the TL431 resistor-divider solver (`src/tl431/tl431.py`).

The Python program is embedded shallowly:

* Python `float` arithmetic is modelled by exact rational arithmetic (`ℚ`);
  resistor values are integers (`ℤ`).
* The resistor-series tables and `RSeries.GetSeries` are embedded directly;
  raising an exception is modelled by `Except String`.
* `TL431._find_solutions` is embedded as a pure function built from the same
  nested loops (list `flatMap` / `filterMap` in loop order), the same guards,
  the same sort key `(error, Irs)` and the same truncation.  Python's stable
  `list.sort` is modelled by `List.insertionSort` with the non-strict
  lexicographic key order, which is sorted and stable for that key.
* A second, `Except`-monadic copy of the solver (`_find_solutionsE`) performs
  every division through a checked divide that fails on a zero denominator,
  exactly where Python would raise `ZeroDivisionError`; proving it always
  returns `Except.ok` of the pure result settles the no-error claim.
-/

namespace RSeries

/-- A minimal set of resistor values often sold in resistor kits. -/
def DEFAULT_SERIES : List ℤ := [0, 100, 120, 150, 220, 330, 470, 680]

/-- Standard resistor values, E12 series. -/
def E12_SERIES : List ℤ := [0, 100, 120, 150, 180, 220, 270, 330, 390, 470, 560, 680, 820]

/-- Standard resistor values, E24 series. -/
def E24_SERIES : List ℤ :=
  [0, 100, 110, 120, 130, 150, 160, 180, 200, 220, 240, 270, 300,
   330, 360, 390, 430, 470, 510, 560, 620, 680, 750, 820, 910]

/-- Standard resistor values, E48 series. -/
def E48_SERIES : List ℤ :=
  [0, 100, 105, 110, 115, 121, 127, 133, 140, 147, 154, 162, 169,
   178, 187, 196, 205, 215, 226, 237, 249, 261, 274, 287, 301,
   316, 332, 348, 365, 383, 402, 422, 442, 464, 487, 511, 536,
   562, 590, 619, 649, 681, 715, 750, 787, 825, 866, 909, 953]

/-- Standard resistor values, E96 series. -/
def E96_SERIES : List ℤ :=
  [0, 100, 102, 105, 107, 110, 113, 115, 118, 121, 124, 127, 130,
   133, 137, 140, 143, 147, 150, 154, 158, 162, 165, 169, 174,
   178, 182, 187, 191, 196, 200, 205, 210, 215, 221, 226, 232,
   237, 243, 249, 255, 261, 267, 274, 280, 287, 294, 301, 309,
   316, 324, 332, 340, 348, 357, 365, 374, 383, 392, 402, 412,
   422, 432, 442, 453, 464, 475, 487, 499, 511, 523, 536, 549,
   562, 576, 590, 604, 619, 634, 649, 665, 681, 698, 715, 732,
   750, 768, 787, 806, 825, 845, 866, 887, 909, 931, 953, 976]

/-- Standard resistor values, E192 series. -/
def E192_SERIES : List ℤ :=
  [0, 100, 101, 102, 104, 105, 106, 107, 109, 110, 111, 113, 114,
   115, 117, 118, 120, 121, 123, 124, 126, 127, 129, 130, 132,
   133, 135, 137, 138, 140, 142, 143, 145, 147, 149, 150, 152,
   154, 156, 158, 160, 162, 164, 165, 167, 169, 172, 174, 176,
   178, 180, 182, 184, 187, 189, 191, 193, 196, 198, 200, 203,
   205, 208, 210, 213, 215, 218, 221, 223, 226, 229, 232, 234,
   237, 240, 243, 246, 249, 252, 255, 258, 261, 264, 267, 271,
   274, 277, 280, 284, 287, 291, 294, 298, 301, 305, 309, 312,
   316, 320, 324, 328, 332, 336, 340, 344, 348, 352, 357, 361,
   365, 370, 374, 379, 383, 388, 392, 397, 402, 407, 412, 417,
   422, 427, 432, 437, 442, 448, 453, 459, 464, 470, 475, 481,
   487, 493, 499, 505, 511, 517, 523, 530, 536, 542, 549, 556,
   562, 569, 576, 583, 590, 597, 604, 612, 619, 626, 634, 642,
   649, 657, 665, 673, 681, 690, 698, 706, 715, 723, 732, 741,
   750, 759, 768, 777, 787, 796, 806, 816, 825, 835, 845, 856,
   866, 876, 887, 898, 909, 920, 931, 942, 953, 965, 976, 988]

/-- Embedding of `RSeries.GetSeries`: chained case-insensitive comparisons, in
the source's branch order, returning the matching table or the
`"... is an unknown series."` exception message. -/
def GetSeries (series_name : String) : Except String (List ℤ) :=
  if series_name.toLower = "default" then Except.ok DEFAULT_SERIES
  else if series_name.toLower = "e192" then Except.ok E192_SERIES
  else if series_name.toLower = "e96" then Except.ok E96_SERIES
  else if series_name.toLower = "e48" then Except.ok E48_SERIES
  else if series_name.toLower = "e12" then Except.ok E12_SERIES
  else if series_name.toLower = "e24" then Except.ok E24_SERIES
  else Except.error (series_name ++ " is an unknown series.")

end RSeries

/-- The series names recognized by `RSeries.GetSeries` (after lowercasing). -/
def knownSeriesNames : List String := ["default", "e12", "e24", "e48", "e96", "e192"]

/-- Embedding of Python's builtin `abs` on a (rational-modelled) float. -/
def rabs (x : ℚ) : ℚ := if x < 0 then -x else x

/-- One solution tuple `(error, vout, R1, R2, Rs, Idiv, Irs, Ik)` appended to
`best` by `TL431._find_solutions`. -/
structure Candidate where
  error : ℚ
  vout : ℚ
  R1 : ℤ
  R2 : ℤ
  Rs : ℤ
  Idiv : ℚ
  Irs : ℚ
  Ik : ℚ

/-- Decidable equality for candidates via the numerator/denominator
representation of each rational field (bypasses the stock rational
decidable-equality instance, which the kernel cannot evaluate on deep
terms). -/
instance : DecidableEq Candidate := fun c d =>
  decidable_of_iff
    (c.error.num = d.error.num ∧ c.error.den = d.error.den ∧
     c.vout.num = d.vout.num ∧ c.vout.den = d.vout.den ∧
     c.R1 = d.R1 ∧ c.R2 = d.R2 ∧ c.Rs = d.Rs ∧
     c.Idiv.num = d.Idiv.num ∧ c.Idiv.den = d.Idiv.den ∧
     c.Irs.num = d.Irs.num ∧ c.Irs.den = d.Irs.den ∧
     c.Ik.num = d.Ik.num ∧ c.Ik.den = d.Ik.den)
    (by
      constructor
      · intro h
        obtain ⟨h1, h2, h3, h4, h5, h6, h7, h8, h9, h10, h11, h12, h13⟩ := h
        obtain ⟨ce, cv, cr1, cr2, crs, cq, ci, ck⟩ := c
        obtain ⟨de, dv, dr1, dr2, drs, dq, di, dk⟩ := d
        rw [Candidate.mk.injEq]
        exact ⟨Rat.ext h1 h2, Rat.ext h3 h4, h5, h6, h7, Rat.ext h8 h9,
          Rat.ext h10 h11, Rat.ext h12 h13⟩
      · rintro rfl
        exact ⟨rfl, rfl, rfl, rfl, rfl, rfl, rfl, rfl, rfl, rfl, rfl, rfl, rfl⟩)

namespace TL431

/-- TL431 reference voltage (2.495 V). -/
def VREF : ℚ := 2495 / 1000

/-- TL431 ref input current, typical (defined in the source, never used). -/
def I_REF : ℚ := 2 / 1000000

/-- Embedding of `TL431.check_voltages`: raises when `vin` or `vout` is below
`VREF`, in that order, and otherwise returns normally. -/
def check_voltages (vin vout : ℚ) : Except String Unit :=
  if vin < VREF then Except.error "Vin must be at least 2.495V."
  else if vout < VREF then Except.error "Vout must be at least 2.495V."
  else Except.ok ()

/-- Embedding of `TL431._make_resistor_series`: every base value of `series`
is scaled by `10 ^ d` for each decade `d < decades`, the chunks are
concatenated in decade order and the result is sorted ascending (Python's
`sorted`, here a stable insertion sort on `ℤ`). -/
def _make_resistor_series (series : List ℤ) (decades : ℕ) : List ℤ :=
  List.insertionSort (· ≤ ·)
    ((List.range decades).flatMap fun d => series.map fun base => base * 10 ^ d)

/-- Embedding of `TL431._calc_vout`: `VREF * (1 + R1 / R2)`. -/
def _calc_vout (R1 R2 : ℤ) : ℚ := VREF * (1 + (R1 : ℚ) / (R2 : ℚ))

/-- The innermost `for Rs in values` loop of `_find_solutions`: skip
non-positive `Rs`, compute `Irs` and `Ik`, drop candidates failing the strict
threshold comparisons, and emit the surviving tuples in loop order. -/
def rsCandidates (Vin error vout Idiv : ℚ) (R1 R2 : ℤ)
    (Ik_min Ik_max Irs_max : ℚ) (values : List ℤ) : List Candidate :=
  values.filterMap fun (Rs : ℤ) =>
    if Rs ≤ 0 then none
    else
      let Irs := (Vin - vout) / (Rs : ℚ)
      let Ik := Irs - Idiv
      if Ik < Ik_min ∨ Ik > Ik_max then none
      else if Irs > Irs_max then none
      else some ⟨error, vout, R1, R2, Rs, Idiv, Irs, Ik⟩

/-- The body of the two outer loops of `_find_solutions` for one `(R2, R1)`
pair: skip non-positive resistors, compute `vout`, `error` and `Idiv`, prune
when the divider current is over budget, otherwise run the `Rs` loop. -/
def pairCandidates (Vin Vout_target : ℚ) (R1 R2 : ℤ)
    (Ik_min Ik_max Idiv_max Irs_max : ℚ) (values : List ℤ) : List Candidate :=
  if R2 ≤ 0 ∨ R1 ≤ 0 then []
  else
    let vout := _calc_vout R1 R2
    let error := rabs (vout - Vout_target)
    let Idiv := vout / ((R1 : ℚ) + (R2 : ℚ))
    if Idiv > Idiv_max then []
    else rsCandidates Vin error vout Idiv R1 R2 Ik_min Ik_max Irs_max values

/-- The complete `best` list accumulated by the triple loop of
`_find_solutions` (outer loop `R2`, middle loop `R1`, inner loop `Rs`, all
over the expanded value list), in append order, before sorting. -/
def allCandidates (Vin Vout_target : ℚ) (series : List ℤ)
    (Ik_min Ik_max Idiv_max Irs_max : ℚ) : List Candidate :=
  let values := _make_resistor_series series 7
  values.flatMap fun (R2 : ℤ) =>
    values.flatMap fun (R1 : ℤ) =>
      pairCandidates Vin Vout_target R1 R2 Ik_min Ik_max Idiv_max Irs_max values

/-- The ranking used by `best.sort(key=lambda x: (x[0], x[6]))` in the source:
non-strict lexicographic order on the key pair (tuple index 0 is `error`,
tuple index 6 is `Irs`, the series-resistor current). -/
def rankLE (c d : Candidate) : Prop :=
  c.error < d.error ∨ (c.error = d.error ∧ c.Irs ≤ d.Irs)

instance : DecidableRel rankLE := fun c d =>
  inferInstanceAs (Decidable (_ ∨ _ ∧ _))

instance : IsTotal Candidate rankLE :=
  ⟨fun c d => by
    rcases lt_trichotomy c.error d.error with h | h | h
    · exact Or.inl (Or.inl h)
    · rcases le_total c.Irs d.Irs with h' | h'
      · exact Or.inl (Or.inr ⟨h, h'⟩)
      · exact Or.inr (Or.inr ⟨h.symm, h'⟩)
    · exact Or.inr (Or.inl h)⟩

instance : IsTrans Candidate rankLE :=
  ⟨fun a b c hab hbc => by
    rcases hab with h1 | ⟨h1, h1'⟩ <;> rcases hbc with h2 | ⟨h2, h2'⟩
    · exact Or.inl (h1.trans h2)
    · exact Or.inl (h2 ▸ h1)
    · exact Or.inl (h1 ▸ h2)
    · exact Or.inr ⟨h1.trans h2, h1'.trans h2'⟩⟩

/-- Embedding of `TL431._find_solutions`: expand the series over 7 decades,
collect the feasible candidates in loop order, sort them stably by the key
`(error, Irs)` and keep the first `max_results`. -/
def _find_solutions (Vin Vout_target : ℚ) (series : List ℤ)
    (Ik_min Ik_max Idiv_max Irs_max : ℚ) (max_results : ℕ) : List Candidate :=
  (List.insertionSort rankLE
    (allCandidates Vin Vout_target series Ik_min Ik_max Idiv_max Irs_max)).take max_results

/-- The ordering asserted by the SPEC for the returned list (not the one in
the source): ascending `error`, ties broken by ascending `Ik`, the TL431
cathode bias current. Stated from the spec only, to be compared with the
code's `rankLE`. -/
def specClaimedLE (c d : Candidate) : Prop :=
  c.error < d.error ∨ (c.error = d.error ∧ c.Ik ≤ d.Ik)

instance : DecidableRel specClaimedLE := fun c d =>
  inferInstanceAs (Decidable (_ ∨ _ ∧ _))

/-- Checked division: fails exactly when Python float division would raise
`ZeroDivisionError`. -/
def divE (a b : ℚ) : Except String ℚ :=
  if b = 0 then Except.error "float division by zero" else Except.ok (a / b)

/-- Checked copy of the inner `Rs` loop: every division goes through `divE`. -/
def rsCandidatesE (Vin error vout Idiv : ℚ) (R1 R2 : ℤ)
    (Ik_min Ik_max Irs_max : ℚ) : List ℤ → Except String (List Candidate)
  | [] => Except.ok []
  | Rs :: rest =>
    if Rs ≤ 0 then rsCandidatesE Vin error vout Idiv R1 R2 Ik_min Ik_max Irs_max rest
    else
      match divE (Vin - vout) (Rs : ℚ) with
      | Except.error e => Except.error e
      | Except.ok Irs =>
        let Ik := Irs - Idiv
        if Ik < Ik_min ∨ Ik > Ik_max then
          rsCandidatesE Vin error vout Idiv R1 R2 Ik_min Ik_max Irs_max rest
        else if Irs > Irs_max then
          rsCandidatesE Vin error vout Idiv R1 R2 Ik_min Ik_max Irs_max rest
        else
          match rsCandidatesE Vin error vout Idiv R1 R2 Ik_min Ik_max Irs_max rest with
          | Except.error e => Except.error e
          | Except.ok tail => Except.ok (⟨error, vout, R1, R2, Rs, Idiv, Irs, Ik⟩ :: tail)

/-- Checked copy of the `(R2, R1)` pair body: the divisions in `_calc_vout`
and in the divider-current formula go through `divE`. -/
def pairCandidatesE (Vin Vout_target : ℚ) (R1 R2 : ℤ)
    (Ik_min Ik_max Idiv_max Irs_max : ℚ) (values : List ℤ) :
    Except String (List Candidate) :=
  if R2 ≤ 0 ∨ R1 ≤ 0 then Except.ok []
  else
    match divE (R1 : ℚ) (R2 : ℚ) with
    | Except.error e => Except.error e
    | Except.ok q =>
      let vout := VREF * (1 + q)
      let error := rabs (vout - Vout_target)
      match divE vout ((R1 : ℚ) + (R2 : ℚ)) with
      | Except.error e => Except.error e
      | Except.ok Idiv =>
        if Idiv > Idiv_max then Except.ok []
        else rsCandidatesE Vin error vout Idiv R1 R2 Ik_min Ik_max Irs_max values

/-- Checked copy of the middle `for R1 in values` loop. -/
def r1LoopE (Vin Vout_target : ℚ) (R2 : ℤ)
    (Ik_min Ik_max Idiv_max Irs_max : ℚ) (values : List ℤ) :
    List ℤ → Except String (List Candidate)
  | [] => Except.ok []
  | R1 :: rest =>
    match pairCandidatesE Vin Vout_target R1 R2 Ik_min Ik_max Idiv_max Irs_max values with
    | Except.error e => Except.error e
    | Except.ok cs =>
      match r1LoopE Vin Vout_target R2 Ik_min Ik_max Idiv_max Irs_max values rest with
      | Except.error e => Except.error e
      | Except.ok tail => Except.ok (cs ++ tail)

/-- Checked copy of the outer `for R2 in values` loop. -/
def r2LoopE (Vin Vout_target : ℚ)
    (Ik_min Ik_max Idiv_max Irs_max : ℚ) (values : List ℤ) :
    List ℤ → Except String (List Candidate)
  | [] => Except.ok []
  | R2 :: rest =>
    match r1LoopE Vin Vout_target R2 Ik_min Ik_max Idiv_max Irs_max values values with
    | Except.error e => Except.error e
    | Except.ok cs =>
      match r2LoopE Vin Vout_target Ik_min Ik_max Idiv_max Irs_max values rest with
      | Except.error e => Except.error e
      | Except.ok tail => Except.ok (cs ++ tail)

/-- Checked copy of `TL431._find_solutions`, in which every `/` of the source
is a checked division. -/
def _find_solutionsE (Vin Vout_target : ℚ) (series : List ℤ)
    (Ik_min Ik_max Idiv_max Irs_max : ℚ) (max_results : ℕ) :
    Except String (List Candidate) :=
  let values := _make_resistor_series series 7
  match r2LoopE Vin Vout_target Ik_min Ik_max Idiv_max Irs_max values values with
  | Except.error e => Except.error e
  | Except.ok best => Except.ok ((List.insertionSort rankLE best).take max_results)

/-- The candidate tuple the source builds from a `(R1, R2, Rs)` triple that
survives all filters, with every field computed by the source's formulas. -/
def mkCandidate (Vin Vout_target : ℚ) (R1 R2 Rs : ℤ) : Candidate :=
  let vout := _calc_vout R1 R2
  let error := rabs (vout - Vout_target)
  let Idiv := vout / ((R1 : ℚ) + (R2 : ℚ))
  let Irs := (Vin - vout) / (Rs : ℚ)
  ⟨error, vout, R1, R2, Rs, Idiv, Irs, Irs - Idiv⟩

end TL431

/-- The program pipeline of `main` after argument parsing: the explicit
rejection of e96/e192, then `check_voltages`, then the catalog lookup, then
`calc`, which invokes the solver with the defaults `Ik_min = 1e-3`,
`Ik_max = 20e-3`, `Idiv_max = 1e-3`, `Irs_max = 10e-3`, `max_results = 10`. -/
def runCalc (vin vout : ℚ) (series_name : String) : Except String (List Candidate) :=
  if series_name = "e96" ∨ series_name = "e192" then
    Except.error (series_name ++ " series resistors take to long and to much CPU to process.")
  else
    match TL431.check_voltages vin vout with
    | Except.error e => Except.error e
    | Except.ok _ =>
      match RSeries.GetSeries series_name with
      | Except.error e => Except.error e
      | Except.ok series =>
        Except.ok (TL431._find_solutions vin vout series
          (1 / 1000) (20 / 1000) (1 / 1000) (10 / 1000) 10)

/-- A concrete solution of the scenario `Vin = 12`, `Vout_target = 5`,
`series = [100]`, default constraints: the triple
`R1 = R2 = 10000 Ω`, `Rs = 1000 Ω`. -/
def w1 : Candidate :=
  ⟨1 / 100, 499 / 100, 10000, 10000, 1000, 499 / 2000000, 701 / 100000, 13521 / 2000000⟩

/-- Inversion of the inner `Rs` loop: every emitted candidate records a
positive `Rs` from `values`, carries exactly the computed fields, and passed
the (boundary-inclusive complements of the) strict threshold tests. -/
theorem mem_rsCandidates {c : Candidate} {Vin error vout Idiv : ℚ} {R1 R2 : ℤ}
    {Ik_min Ik_max Irs_max : ℚ} {values : List ℤ}
    (h : c ∈ TL431.rsCandidates Vin error vout Idiv R1 R2 Ik_min Ik_max Irs_max values) :
    c.Rs ∈ values ∧ 0 < c.Rs ∧ c.error = error ∧ c.vout = vout ∧ c.R1 = R1 ∧ c.R2 = R2 ∧
    c.Idiv = Idiv ∧ c.Irs = (Vin - vout) / (c.Rs : ℚ) ∧ c.Ik = c.Irs - c.Idiv ∧
    Ik_min ≤ c.Ik ∧ c.Ik ≤ Ik_max ∧ c.Irs ≤ Irs_max := by
  simp only [TL431.rsCandidates, List.mem_filterMap] at h
  obtain ⟨Rs, hRs, hf⟩ := h
  by_cases h0 : Rs ≤ 0
  · rw [if_pos h0] at hf
    exact Option.noConfusion hf
  rw [if_neg h0] at hf
  by_cases h1 : (Vin - vout) / (Rs : ℚ) - Idiv < Ik_min ∨ (Vin - vout) / (Rs : ℚ) - Idiv > Ik_max
  · rw [if_pos h1] at hf
    exact Option.noConfusion hf
  rw [if_neg h1] at hf
  by_cases h2 : (Vin - vout) / (Rs : ℚ) > Irs_max
  · rw [if_pos h2] at hf
    exact Option.noConfusion hf
  rw [if_neg h2] at hf
  rw [Option.some_inj] at hf
  subst hf
  rw [not_or] at h1
  exact ⟨hRs, not_le.mp h0, rfl, rfl, rfl, rfl, rfl, rfl, rfl,
    not_lt.mp h1.1, not_lt.mp h1.2, not_lt.mp h2⟩

/-- Inversion of the `(R2, R1)` pair body: emitted candidates have positive
resistors, fields given by the source formulas, and within-threshold
currents. -/
theorem mem_pairCandidates {c : Candidate} {Vin Vout_target : ℚ} {R1 R2 : ℤ}
    {Ik_min Ik_max Idiv_max Irs_max : ℚ} {values : List ℤ}
    (h : c ∈ TL431.pairCandidates Vin Vout_target R1 R2 Ik_min Ik_max Idiv_max Irs_max values) :
    0 < c.R1 ∧ 0 < c.R2 ∧ c.R1 = R1 ∧ c.R2 = R2 ∧ c.Rs ∈ values ∧ 0 < c.Rs ∧
    c.vout = TL431._calc_vout c.R1 c.R2 ∧
    c.error = rabs (c.vout - Vout_target) ∧
    c.Idiv = c.vout / ((c.R1 : ℚ) + (c.R2 : ℚ)) ∧
    c.Irs = (Vin - c.vout) / (c.Rs : ℚ) ∧
    c.Ik = c.Irs - c.Idiv ∧
    c.Idiv ≤ Idiv_max ∧ Ik_min ≤ c.Ik ∧ c.Ik ≤ Ik_max ∧ c.Irs ≤ Irs_max := by
  simp only [TL431.pairCandidates] at h
  by_cases hneg : R2 ≤ 0 ∨ R1 ≤ 0
  · rw [if_pos hneg] at h
    exact absurd h (List.not_mem_nil c)
  rw [if_neg hneg] at h
  by_cases hdiv : TL431._calc_vout R1 R2 / ((R1 : ℚ) + (R2 : ℚ)) > Idiv_max
  · rw [if_pos hdiv] at h
    exact absurd h (List.not_mem_nil c)
  rw [if_neg hdiv] at h
  rw [not_or] at hneg
  obtain ⟨hRsmem, hRspos, herr, hvout, hR1e, hR2e, hIdiv, hIrs, hIk, hk1, hk2, hrs⟩ :=
    mem_rsCandidates h
  subst hR1e
  subst hR2e
  refine ⟨not_le.mp hneg.2, not_le.mp hneg.1, rfl, rfl, hRsmem, hRspos, hvout, ?_, ?_,
    ?_, hIk, ?_, hk1, hk2, hrs⟩
  · rw [herr, hvout]
  · rw [hIdiv, hvout]
  · rw [hIrs, hvout]
  · rw [hIdiv]
    exact not_lt.mp hdiv

/-- Inversion of the full triple loop `allCandidates`. -/
theorem mem_allCandidates {c : Candidate} {Vin Vout_target : ℚ} {series : List ℤ}
    {Ik_min Ik_max Idiv_max Irs_max : ℚ}
    (h : c ∈ TL431.allCandidates Vin Vout_target series Ik_min Ik_max Idiv_max Irs_max) :
    0 < c.R1 ∧ 0 < c.R2 ∧ 0 < c.Rs ∧
    c.R1 ∈ TL431._make_resistor_series series 7 ∧
    c.R2 ∈ TL431._make_resistor_series series 7 ∧
    c.Rs ∈ TL431._make_resistor_series series 7 ∧
    c.vout = TL431._calc_vout c.R1 c.R2 ∧
    c.error = rabs (c.vout - Vout_target) ∧
    c.Idiv = c.vout / ((c.R1 : ℚ) + (c.R2 : ℚ)) ∧
    c.Irs = (Vin - c.vout) / (c.Rs : ℚ) ∧
    c.Ik = c.Irs - c.Idiv ∧
    c.Idiv ≤ Idiv_max ∧ Ik_min ≤ c.Ik ∧ c.Ik ≤ Ik_max ∧ c.Irs ≤ Irs_max := by
  simp only [TL431.allCandidates, List.mem_flatMap] at h
  obtain ⟨R2, hR2mem, R1, hR1mem, hpc⟩ := h
  obtain ⟨hp1, hp2, he1, he2, h3, h4, h5, h6, h7, h8, h9, h10, h11, h12, h13⟩ :=
    mem_pairCandidates hpc
  subst he1
  subst he2
  exact ⟨hp1, hp2, h4, hR1mem, hR2mem, h3, h5, h6, h7, h8, h9, h10, h11, h12, h13⟩

/-- Every candidate the solver returns is one of the accumulated feasible
candidates. -/
theorem mem_find_solutions {c : Candidate} {Vin Vout_target : ℚ} {series : List ℤ}
    {Ik_min Ik_max Idiv_max Irs_max : ℚ} {max_results : ℕ}
    (h : c ∈ TL431._find_solutions Vin Vout_target series
      Ik_min Ik_max Idiv_max Irs_max max_results) :
    c ∈ TL431.allCandidates Vin Vout_target series Ik_min Ik_max Idiv_max Irs_max := by
  rw [TL431._find_solutions] at h
  have h' := List.take_subset max_results _ h
  simpa only [List.mem_insertionSort] using h'

/-- Claim C1: for every call to the solver with positive constraint
thresholds, every candidate tuple in the returned list satisfies
`Ik_min ≤ Ik ≤ Ik_max`, `Idiv ≤ Idiv_max`, `Irs ≤ Irs_max`, and its resistor
values satisfy `R1 > 0`, `R2 > 0`, `Rs > 0`. -/
theorem c1_solutions_satisfy_constraints
    (Vin Vout_target : ℚ) (series : List ℤ)
    (Ik_min Ik_max Idiv_max Irs_max : ℚ) (max_results : ℕ)
    (hIkmin : 0 < Ik_min) (hIkmax : 0 < Ik_max) (hIdiv : 0 < Idiv_max) (hIrs : 0 < Irs_max)
    (c : Candidate)
    (hc : c ∈ TL431._find_solutions Vin Vout_target series
      Ik_min Ik_max Idiv_max Irs_max max_results) :
    Ik_min ≤ c.Ik ∧ c.Ik ≤ Ik_max ∧ c.Idiv ≤ Idiv_max ∧ c.Irs ≤ Irs_max ∧
    0 < c.R1 ∧ 0 < c.R2 ∧ 0 < c.Rs := by
  obtain ⟨h1, h2, h3, _, _, _, _, _, _, _, _, h12, h13, h14, h15⟩ :=
    mem_allCandidates (mem_find_solutions hc)
  exact ⟨h13, h14, h12, h15, h1, h2, h3⟩

/-- Claim C6: for every candidate the solver returns, recomputing
`Vout = VREF * (1 + R1 / R2)`, `error = abs (Vout - Vout_target)`,
`Idiv = Vout / (R1 + R2)`, `Irs = (Vin - Vout) / Rs` and `Ik = Irs - Idiv`
from the stored `R1`, `R2`, `Rs` reproduces the stored `error`, `Vout` and
current fields exactly (exact rational arithmetic models the floats). -/
theorem c6_recompute_reproduces_fields
    (Vin Vout_target : ℚ) (series : List ℤ)
    (Ik_min Ik_max Idiv_max Irs_max : ℚ) (max_results : ℕ)
    (c : Candidate)
    (hc : c ∈ TL431._find_solutions Vin Vout_target series
      Ik_min Ik_max Idiv_max Irs_max max_results) :
    c.vout = TL431._calc_vout c.R1 c.R2 ∧
    c.error = rabs (c.vout - Vout_target) ∧
    c.Idiv = c.vout / ((c.R1 : ℚ) + (c.R2 : ℚ)) ∧
    c.Irs = (Vin - c.vout) / (c.Rs : ℚ) ∧
    c.Ik = c.Irs - c.Idiv := by
  obtain ⟨_, _, _, _, _, _, h7, h8, h9, h10, h11, _, _, _, _⟩ :=
    mem_allCandidates (mem_find_solutions hc)
  exact ⟨h7, h8, h9, h10, h11⟩

/-- Claim C7: for every input, the returned list has length at most
`max_results` and is exactly the first `max_results` entries of the ranked
candidate list. -/
theorem c7_truncation_to_max_results
    (Vin Vout_target : ℚ) (series : List ℤ)
    (Ik_min Ik_max Idiv_max Irs_max : ℚ) (max_results : ℕ) :
    (TL431._find_solutions Vin Vout_target series
      Ik_min Ik_max Idiv_max Irs_max max_results).length ≤ max_results ∧
    TL431._find_solutions Vin Vout_target series Ik_min Ik_max Idiv_max Irs_max max_results =
      (List.insertionSort TL431.rankLE
        (TL431.allCandidates Vin Vout_target series Ik_min Ik_max Idiv_max Irs_max)).take
        max_results := by
  constructor
  · rw [TL431._find_solutions]
    simp [List.length_take]
  · rfl

/-- Claim C10: with `Ik_min > 0`, every returned candidate has computed
`Vout` strictly below `Vin`: the accepted cathode current forces a positive
series-resistor current, hence `Vin > Vout`. -/
theorem c10_vout_lt_vin
    (Vin Vout_target : ℚ) (series : List ℤ)
    (Ik_min Ik_max Idiv_max Irs_max : ℚ) (max_results : ℕ)
    (hIkmin : 0 < Ik_min)
    (c : Candidate)
    (hc : c ∈ TL431._find_solutions Vin Vout_target series
      Ik_min Ik_max Idiv_max Irs_max max_results) :
    c.vout < Vin := by
  obtain ⟨h1, h2, h3, _, _, _, hvout, _, hIdiv, hIrs, hIk, _, hk1, _, _⟩ :=
    mem_allCandidates (mem_find_solutions hc)
  have hR1 : (0 : ℚ) < (c.R1 : ℚ) := by exact_mod_cast h1
  have hR2 : (0 : ℚ) < (c.R2 : ℚ) := by exact_mod_cast h2
  have hRs : (0 : ℚ) < (c.Rs : ℚ) := by exact_mod_cast h3
  have hvpos : 0 < c.vout := by
    rw [hvout, TL431._calc_vout]
    have : (0 : ℚ) < (c.R1 : ℚ) / (c.R2 : ℚ) := div_pos hR1 hR2
    have hv : (0 : ℚ) < TL431.VREF := by norm_num [TL431.VREF]
    nlinarith
  have hIdivpos : 0 < c.Idiv := by
    rw [hIdiv]
    exact div_pos hvpos (by linarith)
  have hIrspos : 0 < c.Irs := by
    have : 0 < c.Ik := lt_of_lt_of_le hIkmin hk1
    rw [hIk] at this
    linarith
  rw [hIrs] at hIrspos
  rcases (div_pos_iff).mp hIrspos with ⟨hnum, _⟩ | ⟨_, hden⟩
  · linarith
  · linarith

/-- Claim C2 (amended): the returned list is sorted by the key the source
actually uses, `(error, Irs)`: non-decreasing fit error and, among candidates
with equal error, non-decreasing series-resistor current `Irs` (the source's
sort key is `(x[0], x[6])` and its comment reads "sort by error, then by
lowest Rs current"). -/
theorem c2_sorted_by_error_then_irs
    (Vin Vout_target : ℚ) (series : List ℤ)
    (Ik_min Ik_max Idiv_max Irs_max : ℚ) (max_results : ℕ) :
    List.Sorted TL431.rankLE (TL431._find_solutions Vin Vout_target series
      Ik_min Ik_max Idiv_max Irs_max max_results) := by
  rw [TL431._find_solutions]
  have hs := List.sorted_insertionSort TL431.rankLE
    (TL431.allCandidates Vin Vout_target series Ik_min Ik_max Idiv_max Irs_max)
  exact List.Pairwise.sublist (List.take_sublist _ _) hs

set_option maxRecDepth 100000 in
set_option maxHeartbeats 4000000 in
/-- Claim C2 is false as stated: on the concrete input `Vin = 12`,
`Vout_target = 4.99`, `series = [100, 200, 500]`, `Ik_min = 0.01`,
`Ik_max = 0.013`, `Idiv_max = 0.025`, `Irs_max = 0.036`, the returned list
is NOT sorted by (error, then non-decreasing Ik): its first three entries all
have error exactly 0 (their divider ratio is exactly 1, so the computed Vout
equals the target even in floating point) with cathode currents 0.011525,
0.0127725, 0.0101 — not non-decreasing — because the code breaks ties on
Irs, not Ik.  Every threshold comparison at this input has margin at least
5e-5 (the accepted currents clear their bounds by 1e-4 to 9.5e-4 and the
nearest rejected candidates miss theirs by at least 5e-4), many orders of
magnitude above double-precision rounding error, so the IEEE-double run of
the source accepts and rejects exactly the same triples as this exact
rational model. -/
theorem c2_counterexample :
    ¬ List.Sorted TL431.specClaimedLE
      (TL431._find_solutions 12 (499 / 100) [100, 200, 500]
        (1 / 100) (13 / 1000) (1 / 40) (9 / 250) 10) := by
  with_unfolding_all decide

/-- Claim C3 (amended): for every series table and decade count, the catalog
expansion returns a non-decreasing (sorted) permutation of all products
`base * 10 ^ d`, of length exactly (series length) × decades — duplicates
(in particular the sentinel 0, repeated once per decade) are retained, not
collapsed. -/
theorem c3_expansion_sorted_length_perm (series : List ℤ) (decades : ℕ) :
    (TL431._make_resistor_series series decades).Sorted (· ≤ ·) ∧
    (TL431._make_resistor_series series decades).length = series.length * decades ∧
    List.Perm (TL431._make_resistor_series series decades)
      ((List.range decades).flatMap fun d => series.map fun base => base * 10 ^ d) := by
  refine ⟨List.sorted_insertionSort _ _, ?_, List.perm_insertionSort _ _⟩
  rw [TL431._make_resistor_series, (List.perm_insertionSort _ _).length_eq]
  induction decades with
  | zero => simp
  | succ k ih =>
    rw [List.range_succ, List.flatMap_append, List.length_append, ih]
    simp [Nat.mul_succ]

/-- Claim C3 is false as stated: already for the DEFAULT series at 2 decades
the expansion is not strictly ascending and contains a duplicate (the
sentinel 0 appears at both decades); nothing is collapsed — the length is
exactly 8 × 2 = 16, not 16 minus the duplicate. -/
theorem c3_counterexample :
    ¬ (TL431._make_resistor_series RSeries.DEFAULT_SERIES 2).Sorted (· < ·) ∧
    ¬ (TL431._make_resistor_series RSeries.DEFAULT_SERIES 2).Nodup ∧
    (TL431._make_resistor_series RSeries.DEFAULT_SERIES 2).length =
      RSeries.DEFAULT_SERIES.length * 2 := by
  with_unfolding_all decide

/-- Claim C5: the solver's threshold comparisons are strict, so a triple
whose computed currents lie exactly on a boundary (`Ik = Ik_min` or
`Ik = Ik_max`, `Irs = Irs_max`, `Idiv = Idiv_max` — all covered by the
non-strict hypotheses below) is accepted into the candidate list, not
rejected. -/
theorem c5_boundary_values_accepted
    (Vin Vout_target : ℚ) (series : List ℤ) (Ik_min Ik_max Idiv_max Irs_max : ℚ)
    (R1 R2 Rs : ℤ) (hR1 : 0 < R1) (hR2 : 0 < R2) (hRs : 0 < Rs)
    (hR1m : R1 ∈ TL431._make_resistor_series series 7)
    (hR2m : R2 ∈ TL431._make_resistor_series series 7)
    (hRsm : Rs ∈ TL431._make_resistor_series series 7)
    (hIdiv : TL431._calc_vout R1 R2 / ((R1 : ℚ) + (R2 : ℚ)) ≤ Idiv_max)
    (hIk1 : Ik_min ≤ (Vin - TL431._calc_vout R1 R2) / (Rs : ℚ)
      - TL431._calc_vout R1 R2 / ((R1 : ℚ) + (R2 : ℚ)))
    (hIk2 : (Vin - TL431._calc_vout R1 R2) / (Rs : ℚ)
      - TL431._calc_vout R1 R2 / ((R1 : ℚ) + (R2 : ℚ)) ≤ Ik_max)
    (hIrs : (Vin - TL431._calc_vout R1 R2) / (Rs : ℚ) ≤ Irs_max) :
    TL431.mkCandidate Vin Vout_target R1 R2 Rs ∈
      TL431.allCandidates Vin Vout_target series Ik_min Ik_max Idiv_max Irs_max := by
  simp only [TL431.allCandidates, List.mem_flatMap]
  refine ⟨R2, hR2m, R1, hR1m, ?_⟩
  simp only [TL431.pairCandidates]
  rw [if_neg (by rw [not_or]; exact ⟨not_le.mpr hR2, not_le.mpr hR1⟩)]
  rw [if_neg (not_lt.mpr hIdiv)]
  simp only [TL431.rsCandidates, List.mem_filterMap]
  refine ⟨Rs, hRsm, ?_⟩
  have hc1 : ¬((Vin - TL431._calc_vout R1 R2) / (Rs : ℚ)
      - TL431._calc_vout R1 R2 / ((R1 : ℚ) + (R2 : ℚ)) < Ik_min ∨
      (Vin - TL431._calc_vout R1 R2) / (Rs : ℚ)
      - TL431._calc_vout R1 R2 / ((R1 : ℚ) + (R2 : ℚ)) > Ik_max) := by
    rw [not_or]
    exact ⟨not_lt.mpr hIk1, not_lt.mpr hIk2⟩
  rw [if_neg (not_le.mpr hRs), if_neg hc1, if_neg (not_lt.mpr hIrs)]
  rfl

/-- Claim C8: the catalog lookup returns the table matching the
case-insensitively compared name for each of the six recognized names, and
fails with an error message carrying the offending name exactly when the
lowered name is none of them. -/
theorem c8_get_series_spec (s : String) :
    (RSeries.GetSeries s = Except.error (s ++ " is an unknown series.") ↔
      s.toLower ∉ knownSeriesNames) ∧
    (s.toLower = "default" → RSeries.GetSeries s = Except.ok RSeries.DEFAULT_SERIES) ∧
    (s.toLower = "e12" → RSeries.GetSeries s = Except.ok RSeries.E12_SERIES) ∧
    (s.toLower = "e24" → RSeries.GetSeries s = Except.ok RSeries.E24_SERIES) ∧
    (s.toLower = "e48" → RSeries.GetSeries s = Except.ok RSeries.E48_SERIES) ∧
    (s.toLower = "e96" → RSeries.GetSeries s = Except.ok RSeries.E96_SERIES) ∧
    (s.toLower = "e192" → RSeries.GetSeries s = Except.ok RSeries.E192_SERIES) := by
  refine ⟨⟨?_, ?_⟩, ?_, ?_, ?_, ?_, ?_, ?_⟩
  · intro he hmem
    simp only [knownSeriesNames, List.mem_cons, List.not_mem_nil, or_false] at hmem
    rcases hmem with h | h | h | h | h | h <;> simp [RSeries.GetSeries, h] at he
  · intro hnot
    simp only [knownSeriesNames, List.mem_cons, List.not_mem_nil, or_false, not_or] at hnot
    obtain ⟨n1, n2, n3, n4, n5, n6⟩ := hnot
    simp [RSeries.GetSeries, n1, n2, n3, n4, n5, n6]
  · intro h
    simp [RSeries.GetSeries, h]
  · intro h
    simp [RSeries.GetSeries, h]
  · intro h
    simp [RSeries.GetSeries, h]
  · intro h
    simp [RSeries.GetSeries, h]
  · intro h
    simp [RSeries.GetSeries, h]
  · intro h
    simp [RSeries.GetSeries, h]

/-- Claim C9: `check_voltages` raises exactly when `vin < 2.495` or
`vout < 2.495` (`VREF`), returns normally when both are at least `VREF`, and
in the program pipeline a voltage failure surfaces before the solver runs
(for any series name that survives the earlier e96/e192 rejection). -/
theorem c9_check_voltages_spec (vin vout : ℚ) (name : String) :
    ((∃ e, TL431.check_voltages vin vout = Except.error e) ↔
      vin < TL431.VREF ∨ vout < TL431.VREF) ∧
    (TL431.VREF ≤ vin → TL431.VREF ≤ vout →
      TL431.check_voltages vin vout = Except.ok ()) ∧
    (∀ e, TL431.check_voltages vin vout = Except.error e → name ≠ "e96" → name ≠ "e192" →
      runCalc vin vout name = Except.error e) := by
  refine ⟨⟨?_, ?_⟩, ?_, ?_⟩
  · rintro ⟨e, he⟩
    by_cases h1 : vin < TL431.VREF
    · exact Or.inl h1
    by_cases h2 : vout < TL431.VREF
    · exact Or.inr h2
    simp [TL431.check_voltages, h1, h2] at he
  · intro h
    rcases h with h | h
    · exact ⟨"Vin must be at least 2.495V.", by simp [TL431.check_voltages, h]⟩
    by_cases h1 : vin < TL431.VREF
    · exact ⟨"Vin must be at least 2.495V.", by simp [TL431.check_voltages, h1]⟩
    exact ⟨"Vout must be at least 2.495V.", by simp [TL431.check_voltages, h1, h]⟩
  · intro h1 h2
    simp [TL431.check_voltages, not_lt.mpr h1, not_lt.mpr h2]
  · intro e he hn1 hn2
    rw [runCalc, if_neg (by rw [not_or]; exact ⟨hn1, hn2⟩), he]

/-- The checked inner loop never fails and agrees with the pure inner loop. -/
theorem rsCandidatesE_eq (Vin error vout Idiv : ℚ) (R1 R2 : ℤ)
    (Ik_min Ik_max Irs_max : ℚ) (values : List ℤ) :
    TL431.rsCandidatesE Vin error vout Idiv R1 R2 Ik_min Ik_max Irs_max values =
      Except.ok (TL431.rsCandidates Vin error vout Idiv R1 R2 Ik_min Ik_max Irs_max values) := by
  induction values with
  | nil => rfl
  | cons Rs rest ih =>
    by_cases h0 : Rs ≤ 0
    · simpa [TL431.rsCandidatesE, TL431.rsCandidates, List.filterMap_cons, h0] using ih
    have hne : ((Rs : ℚ)) ≠ 0 := Int.cast_ne_zero.mpr (by omega)
    by_cases h1 : (Vin - vout) / (Rs : ℚ) - Idiv < Ik_min ∨
        (Vin - vout) / (Rs : ℚ) - Idiv > Ik_max
    · simpa [TL431.rsCandidatesE, TL431.rsCandidates, List.filterMap_cons, h0,
        TL431.divE, hne, h1] using ih
    by_cases h2 : (Vin - vout) / (Rs : ℚ) > Irs_max
    · simpa [TL431.rsCandidatesE, TL431.rsCandidates, List.filterMap_cons, h0,
        TL431.divE, hne, h1, h2] using ih
    simp [TL431.rsCandidatesE, TL431.rsCandidates, List.filterMap_cons, h0,
      TL431.divE, hne, h1, h2, ih]

/-- The checked pair body never fails and agrees with the pure pair body. -/
theorem pairCandidatesE_eq (Vin Vout_target : ℚ) (R1 R2 : ℤ)
    (Ik_min Ik_max Idiv_max Irs_max : ℚ) (values : List ℤ) :
    TL431.pairCandidatesE Vin Vout_target R1 R2 Ik_min Ik_max Idiv_max Irs_max values =
      Except.ok (TL431.pairCandidates Vin Vout_target R1 R2
        Ik_min Ik_max Idiv_max Irs_max values) := by
  by_cases hneg : R2 ≤ 0 ∨ R1 ≤ 0
  · simp [TL431.pairCandidatesE, TL431.pairCandidates, hneg]
  have hR2 : ((R2 : ℚ)) ≠ 0 := Int.cast_ne_zero.mpr (by omega)
  have hsum : ((R1 : ℚ) + (R2 : ℚ)) ≠ 0 := by
    have h1 : (0 : ℚ) < (R1 : ℚ) := by exact_mod_cast (by omega : (0 : ℤ) < R1)
    have h2 : (0 : ℚ) < (R2 : ℚ) := by exact_mod_cast (by omega : (0 : ℤ) < R2)
    positivity
  by_cases hdiv : TL431.VREF * (1 + (R1 : ℚ) / (R2 : ℚ)) / ((R1 : ℚ) + (R2 : ℚ)) > Idiv_max
  · simp [TL431.pairCandidatesE, TL431.pairCandidates, hneg, TL431.divE, hR2, hsum, hdiv,
      TL431._calc_vout]
  simp [TL431.pairCandidatesE, TL431.pairCandidates, hneg, TL431.divE, hR2, hsum, hdiv,
    TL431._calc_vout, rsCandidatesE_eq]

/-- The checked middle loop never fails and agrees with the pure middle
loop. -/
theorem r1LoopE_eq (Vin Vout_target : ℚ) (R2 : ℤ) (Ik_min Ik_max Idiv_max Irs_max : ℚ)
    (values : List ℤ) (l : List ℤ) :
    TL431.r1LoopE Vin Vout_target R2 Ik_min Ik_max Idiv_max Irs_max values l =
      Except.ok (l.flatMap fun (R1 : ℤ) =>
        TL431.pairCandidates Vin Vout_target R1 R2 Ik_min Ik_max Idiv_max Irs_max values) := by
  induction l with
  | nil => rfl
  | cons R1 rest ih =>
    simp [TL431.r1LoopE, pairCandidatesE_eq, ih, List.flatMap_cons]

/-- The checked outer loop never fails and agrees with the pure outer loop. -/
theorem r2LoopE_eq (Vin Vout_target : ℚ) (Ik_min Ik_max Idiv_max Irs_max : ℚ)
    (values : List ℤ) (l : List ℤ) :
    TL431.r2LoopE Vin Vout_target Ik_min Ik_max Idiv_max Irs_max values l =
      Except.ok (l.flatMap fun (R2 : ℤ) => values.flatMap fun (R1 : ℤ) =>
        TL431.pairCandidates Vin Vout_target R1 R2 Ik_min Ik_max Idiv_max Irs_max values) := by
  induction l with
  | nil => rfl
  | cons R2 rest ih =>
    simp [TL431.r2LoopE, r1LoopE_eq, ih, List.flatMap_cons]

/-- Claim C4: the solver raises no error on any input — in the checked copy,
where every division of the source fails on a zero denominator, the result is
always `Except.ok` of the pure solver's list, because non-positive resistor
values are skipped before any division; and when no triple satisfies the
constraints the solver returns the empty list rather than failing. -/
theorem c4_solver_never_raises (Vin Vout_target : ℚ) (series : List ℤ)
    (Ik_min Ik_max Idiv_max Irs_max : ℚ) (max_results : ℕ) :
    TL431._find_solutionsE Vin Vout_target series Ik_min Ik_max Idiv_max Irs_max max_results =
      Except.ok (TL431._find_solutions Vin Vout_target series
        Ik_min Ik_max Idiv_max Irs_max max_results) ∧
    (TL431.allCandidates Vin Vout_target series Ik_min Ik_max Idiv_max Irs_max = [] →
      TL431._find_solutions Vin Vout_target series Ik_min Ik_max Idiv_max Irs_max max_results
        = []) := by
  constructor
  · simp only [TL431._find_solutionsE, r2LoopE_eq]
    rfl
  · intro h
    rw [TL431._find_solutions, h]
    simp

set_option maxRecDepth 8000 in
set_option maxHeartbeats 1000000 in
/-- Witness for C1: at Vin = 12 V, Vout_target = 5 V, series = [100] and the
default constraints, the returned solution `R1 = R2 = 10 kΩ`, `Rs = 1 kΩ`
satisfies every constraint. -/
theorem c1_witness :
    (1 : ℚ) / 1000 ≤ w1.Ik ∧ w1.Ik ≤ 20 / 1000 ∧ w1.Idiv ≤ 1 / 1000 ∧
    w1.Irs ≤ 10 / 1000 ∧ 0 < w1.R1 ∧ 0 < w1.R2 ∧ 0 < w1.Rs :=
  c1_solutions_satisfy_constraints 12 5 [100] (1 / 1000) (20 / 1000) (1 / 1000) (10 / 1000) 10
    (by norm_num) (by norm_num) (by norm_num) (by norm_num) w1 (by with_unfolding_all decide)

set_option maxRecDepth 8000 in
set_option maxHeartbeats 1000000 in
/-- Witness for C4: at Vin = Vout_target = 0 no triple is feasible and the
solver returns the empty list (rather than failing). -/
theorem c4_witness :
    TL431._find_solutions 0 0 [100] (1 / 1000) (20 / 1000) (1 / 1000) (10 / 1000) 10 = [] :=
  (c4_solver_never_raises 0 0 [100] (1 / 1000) (20 / 1000) (1 / 1000) (10 / 1000) 10).2
    (by with_unfolding_all decide)

set_option maxRecDepth 8000 in
set_option maxHeartbeats 1000000 in
/-- Witness for C5: with thresholds set exactly at the computed boundary
values (`Ik_min = Ik`, `Idiv_max = Idiv`, `Irs_max = Irs` of the triple
`R1 = R2 = 10 kΩ`, `Rs = 1 kΩ` at Vin = 12 V), the triple is still
accepted. -/
theorem c5_witness :
    TL431.mkCandidate 12 5 10000 10000 1000 ∈
      TL431.allCandidates 12 5 [100] (13521 / 2000000) (1 / 50) (499 / 2000000)
        (701 / 100000) :=
  c5_boundary_values_accepted 12 5 [100] (13521 / 2000000) (1 / 50) (499 / 2000000)
    (701 / 100000) 10000 10000 1000 (by norm_num) (by norm_num) (by norm_num)
    (by with_unfolding_all decide) (by with_unfolding_all decide)
    (by with_unfolding_all decide) (by with_unfolding_all decide)
    (by with_unfolding_all decide) (by with_unfolding_all decide)
    (by with_unfolding_all decide)

set_option maxRecDepth 8000 in
set_option maxHeartbeats 1000000 in
/-- Witness for C6: the returned solution `R1 = R2 = 10 kΩ`, `Rs = 1 kΩ` of
the Vin = 12 V, Vout_target = 5 V, series = [100] scenario reproduces all its
stored fields when recomputed from its resistors. -/
theorem c6_witness :
    w1.vout = TL431._calc_vout w1.R1 w1.R2 ∧
    w1.error = rabs (w1.vout - 5) ∧
    w1.Idiv = w1.vout / ((w1.R1 : ℚ) + (w1.R2 : ℚ)) ∧
    w1.Irs = (12 - w1.vout) / (w1.Rs : ℚ) ∧
    w1.Ik = w1.Irs - w1.Idiv :=
  c6_recompute_reproduces_fields 12 5 [100] (1 / 1000) (20 / 1000) (1 / 1000) (10 / 1000) 10
    w1 (by with_unfolding_all decide)

set_option maxRecDepth 8000 in
set_option maxHeartbeats 1000000 in
/-- Witness for C8: the unknown name "bogus" yields the error carrying the
name, and the mixed-case recognized name "E24" yields the E24 table. -/
theorem c8_witness :
    RSeries.GetSeries "bogus" = Except.error ("bogus" ++ " is an unknown series.") ∧
    RSeries.GetSeries "E24" = Except.ok RSeries.E24_SERIES :=
  ⟨(c8_get_series_spec "bogus").1.mpr (by with_unfolding_all decide),
   (c8_get_series_spec "E24").2.2.2.1 (by with_unfolding_all decide)⟩

set_option maxRecDepth 8000 in
set_option maxHeartbeats 1000000 in
/-- Witness for C9: at Vin = 2 V (below VREF) the pipeline stops with the
voltage error before the solver runs. -/
theorem c9_witness :
    runCalc 2 5 "default" = Except.error "Vin must be at least 2.495V." :=
  (c9_check_voltages_spec 2 5 "default").2.2 "Vin must be at least 2.495V."
    (by with_unfolding_all rfl) (by decide) (by decide)

set_option maxRecDepth 8000 in
set_option maxHeartbeats 1000000 in
/-- Witness for C10: the returned solution of the Vin = 12 V scenario has
computed output voltage 4.99 V, strictly below Vin. -/
theorem c10_witness : w1.vout < 12 :=
  c10_vout_lt_vin 12 5 [100] (1 / 1000) (20 / 1000) (1 / 1000) (10 / 1000) 10 (by norm_num)
    w1 (by with_unfolding_all decide)
